import Mathlib

/-
Verification of the transactional graph service layer
(src/graph_api/services/graph_service.py, src/graph_api/models/base.py).

The service (class GraphService) coordinates an external store collaborator
(a GraphContext) and is embedded here at two levels:

1. A trace semantics (namespace GraphServiceT): the store is an oracle that
   prescribes the outcome (success or a raised error) of every store call an
   operation may make, and each operation is translated call-for-call from
   the Python control flow into a function producing the final result, the
   ordered trace of store calls made, and the final state of the store's
   transaction flag.  The flag `context._transaction._in_transaction` that
   the code inspects is tracked by the transaction state machine of the
   store contract: a successful begin opens it, a successful commit or
   rollback closes it, and a failing call leaves it unchanged.

2. A store-level semantics (namespace GraphServiceS) over a concrete
   in-memory store (namespace SpecStore).  The store itself is an external
   collaborator of the repository (the graph-context library); the parts of
   it that some claims need are modelled from the specification's store
   contract, and each such definition says so in its doc comment.
-/

set_option autoImplicit false

/-- The closed error taxonomy raised by the store and by the service,
mirroring the exception classes imported by graph_service.py
(EntityNotFoundError, RelationNotFoundError, ValidationError, SchemaError,
TransactionError) plus a constructor for any other exception. -/
inductive GErr where
  | entityNotFound (msg : String)
  | relationNotFound (msg : String)
  | validation (msg : String)
  | schemaViolation (msg : String)
  | transaction (msg : String)
  | other (msg : String)
deriving DecidableEq, Repr

/-- `str(e)` of an exception: its message. -/
def GErr.msg : GErr → String
  | .entityNotFound m => m
  | .relationNotFound m => m
  | .validation m => m
  | .schemaViolation m => m
  | .transaction m => m
  | .other m => m

/-- The kind of an error, forgetting the message. -/
inductive ErrKind where
  | notFoundK | relationNotFoundK | validationK | schemaK | transactionK | otherK
deriving DecidableEq, Repr

def GErr.kind : GErr → ErrKind
  | .entityNotFound _ => .notFoundK
  | .relationNotFound _ => .relationNotFoundK
  | .validation _ => .validationK
  | .schemaViolation _ => .schemaK
  | .transaction _ => .transactionK
  | .other _ => .otherK

/-- The kind of the error carried by a result, if any. -/
def resultKind {α : Type} : Except GErr α → Option ErrKind
  | .ok _ => none
  | .error e => some e.kind

/-- The store calls a service operation can make, as trace events. -/
inductive StoreEv where
  | beginTx | commitTx | rollbackTx
  | registerEntityTypeCall | registerRelationTypeCall
  | createEntityCall | getEntityCall | updateEntityCall | deleteEntityCall
  | createRelationCall | getRelationCall | updateRelationCall | deleteRelationCall
  | queryCall
deriving DecidableEq, Repr

/-- Number of occurrences of an event in a trace. -/
def countEv (e : StoreEv) : List StoreEv → Nat
  | [] => 0
  | x :: xs => (if x = e then 1 else 0) + countEv e xs

/-- Outcome prescription for the store calls of one service operation:
`none` means the call succeeds, `some e` means it raises `e`.
`preErr` is the outcome of the pre-transaction existence check (for
operations that have one), `body1Err`/`body2Err` of the first and second
in-transaction call, and `inTx0` is the transaction flag when the operation
starts. -/
structure Scen where
  inTx0 : Bool
  preErr : Option GErr
  body1Err : Option GErr
  body2Err : Option GErr
  beginErr : Option GErr
  commitErr : Option GErr
  rollbackErr : Option GErr
deriving DecidableEq, Repr

instance {ε α : Type} [DecidableEq ε] [DecidableEq α] : DecidableEq (Except ε α) := fun a b =>
  match a, b with
  | .ok x, .ok y =>
      if h : x = y then .isTrue (by rw [h]) else .isFalse (by simp [h])
  | .error x, .error y =>
      if h : x = y then .isTrue (by rw [h]) else .isFalse (by simp [h])
  | .ok _, .error _ => .isFalse (by simp)
  | .error _, .ok _ => .isFalse (by simp)

/-- Result of running one service operation against a scenario: the value
returned or error raised, the ordered trace of store calls made, and the
final transaction flag. -/
structure OpRun where
  result : Except GErr Unit
  trace : List StoreEv
  finalInTx : Bool
deriving DecidableEq, Repr

/-- Primitive property kinds of the schema (graph_context PropertyType,
the eight members named by the pydantic error message in the tests). -/
inductive PropertyType where
  | string | integer | float | boolean | datetime | uuid | list | dict
deriving DecidableEq, Repr

/-- The runtime value found in a property definition's `type` field: either
a PropertyType enum member, or some other raw value for which the code's
`isinstance(prop_def.type, PropertyType)` check fails. -/
inductive PropTypeField where
  | enumType (t : PropertyType)
  | rawType (s : String)
deriving DecidableEq, Repr

/-- The runtime value found in a type definition's properties mapping:
either a PropertyDefinition, or some other value for which the code's
`isinstance(prop_def, PropertyDefinition)` check fails. -/
inductive PropDefField where
  | propDef (ptype : PropTypeField) (required : Bool)
  | notPropDef
deriving DecidableEq, Repr

/-- An entity type definition as received by register_entity_type. -/
structure EntityTypeDef where
  name : String
  properties : List (String × PropDefField)
deriving DecidableEq, Repr

/-- A relation type definition as received by register_relation_type. -/
structure RelationTypeDef where
  name : String
  properties : List (String × PropDefField)
  from_types : List String
  to_types : List String
deriving DecidableEq, Repr

/-- The property-definition validation loop shared by register_entity_type
and register_relation_type (graph_service.py lines 57-65 and 96-104):
iterate over the properties in order and raise ValidationError at the first
entry that is not a PropertyDefinition or whose type field is not a
PropertyType enum value. -/
def validatePropDefs : List (String × PropDefField) → Option GErr
  | [] => none
  | (pname, .notPropDef) :: _ =>
      some (.validation ("Property " ++ pname ++ " must be defined using PropertyDefinition"))
  | (pname, .propDef (.rawType _) _) :: _ =>
      some (.validation ("Property " ++ pname ++ " type must be a PropertyType enum value"))
  | (_, .propDef (.enumType _) _) :: rest => validatePropDefs rest

namespace GraphServiceT

/-- The inner exception handler shared by every mutating operation: roll
back and re-raise.  In update/delete/register operations the rollback is
guarded by `if self._context._transaction._in_transaction:`; when this
handler runs, begin has succeeded and no commit or rollback has succeeded
since, so the tracked flag is `true` and the guard always passes.  In
create_entity and create_relation the rollback is unguarded.  If the
rollback itself raises, that exception replaces the original one (the
`raise e` line is never reached) and reaches the outer handler instead,
leaving the transaction flag set. -/
def innerHandler (wrap : GErr → GErr) (guarded : Bool) (tr : List StoreEv)
    (e : GErr) (rollbackErr : Option GErr) : OpRun :=
  let flagAtHandler := true
  if guarded && !flagAtHandler then
    ⟨.error (wrap e), tr, true⟩
  else
    match rollbackErr with
    | none => ⟨.error (wrap e), tr ++ [.rollbackTx], false⟩
    | some e2 => ⟨.error (wrap e2), tr ++ [.rollbackTx], true⟩

/-- The commit step closing the transaction body: on success the operation
returns; if the commit raises, the inner handler runs. -/
def commitStep (wrap : GErr → GErr) (guarded : Bool) (tr : List StoreEv)
    (s : Scen) : OpRun :=
  match s.commitErr with
  | none => ⟨.ok (), tr ++ [.commitTx], false⟩
  | some e => innerHandler wrap guarded (tr ++ [.commitTx]) e s.rollbackErr

/-- The transactional phase common to all eight mutating operations of
GraphService (the code repeats this block verbatim in each method):
begin transaction; try the body calls (`ev1`, then `ev2` when the
operation has a read-back) and commit; on any exception roll back
(see innerHandler) and re-raise; the operation's outer handler `wrap`
re-raises its classified kinds unchanged and wraps every other exception
as TransactionError(str(e)).  `pre` is the trace of store calls the
operation already made before the transaction. -/
def txPhase (wrap : GErr → GErr) (guarded : Bool) (ev1 : StoreEv)
    (ev2 : Option StoreEv) (pre : List StoreEv) (s : Scen) : OpRun :=
  match s.beginErr with
  | some e => ⟨.error (wrap e), pre ++ [.beginTx], s.inTx0⟩
  | none =>
    match s.body1Err with
    | some e => innerHandler wrap guarded (pre ++ [.beginTx, ev1]) e s.rollbackErr
    | none =>
      match ev2 with
      | some ev =>
        match s.body2Err with
        | some e => innerHandler wrap guarded (pre ++ [.beginTx, ev1, ev]) e s.rollbackErr
        | none => commitStep wrap guarded (pre ++ [.beginTx, ev1, ev]) s
      | none => commitStep wrap guarded (pre ++ [.beginTx, ev1]) s

/-- Outer handler of create_entity (lines 154-157): ValidationError is
re-raised unchanged, every other exception becomes TransactionError(str(e)). -/
def wrapCreateEntity : GErr → GErr
  | .validation m => .validation m
  | e => .transaction e.msg

/-- Outer handler of register_entity_type (lines 76-79): only
ValidationError is re-raised unchanged. -/
def wrapRegisterEntityType : GErr → GErr
  | .validation m => .validation m
  | e => .transaction e.msg

/-- Outer handler of register_relation_type (lines 115-118):
ValidationError and SchemaError are re-raised unchanged. -/
def wrapRegisterRelationType : GErr → GErr
  | .validation m => .validation m
  | .schemaViolation m => .schemaViolation m
  | e => .transaction e.msg

/-- Outer handler of update_entity (lines 223-226): EntityNotFoundError and
ValidationError are re-raised unchanged. -/
def wrapUpdateEntity : GErr → GErr
  | .entityNotFound m => .entityNotFound m
  | .validation m => .validation m
  | e => .transaction e.msg

/-- Outer handler of delete_entity (lines 257-260): only
EntityNotFoundError is re-raised unchanged. -/
def wrapDeleteEntity : GErr → GErr
  | .entityNotFound m => .entityNotFound m
  | e => .transaction e.msg

/-- Outer handler of create_relation (lines 308-311): ValidationError and
EntityNotFoundError are re-raised unchanged. -/
def wrapCreateRelation : GErr → GErr
  | .validation m => .validation m
  | .entityNotFound m => .entityNotFound m
  | e => .transaction e.msg

/-- Outer handler of update_relation (lines 383-386): RelationNotFoundError
and ValidationError are re-raised unchanged. -/
def wrapUpdateRelation : GErr → GErr
  | .relationNotFound m => .relationNotFound m
  | .validation m => .validation m
  | e => .transaction e.msg

/-- Outer handler of delete_relation (lines 417-420): only
RelationNotFoundError is re-raised unchanged. -/
def wrapDeleteRelation : GErr → GErr
  | .relationNotFound m => .relationNotFound m
  | e => .transaction e.msg

/-- GraphService.create_entity (lines 120-157), trace semantics: begin;
store create_entity; read-back get_entity; commit; unguarded rollback on
failure. -/
def create_entity (s : Scen) : OpRun :=
  txPhase wrapCreateEntity false .createEntityCall (some .getEntityCall) [] s

/-- GraphService.register_entity_type (lines 43-79), trace semantics: the
property-definition validation loop runs before any store call and raises
ValidationError without touching the store; then begin; store
register_entity_type; commit; guarded rollback on failure. -/
def register_entity_type (t : EntityTypeDef) (s : Scen) : OpRun :=
  match validatePropDefs t.properties with
  | some e => ⟨.error e, [], s.inTx0⟩
  | none => txPhase wrapRegisterEntityType true .registerEntityTypeCall none [] s

/-- GraphService.register_relation_type (lines 81-118), trace semantics:
same validation loop before any store call; then begin; store
register_relation_type; commit; guarded rollback on failure. -/
def register_relation_type (t : RelationTypeDef) (s : Scen) : OpRun :=
  match validatePropDefs t.properties with
  | some e => ⟨.error e, [], s.inTx0⟩
  | none => txPhase wrapRegisterRelationType true .registerRelationTypeCall none [] s

/-- GraphService.update_entity (lines 183-226), trace semantics: existence
check by store get_entity first (an EntityNotFoundError there is re-raised
as a fresh EntityNotFoundError with message "Entity {id} not found"; any
other error from the check falls through to the outer handler); then
begin; store update_entity; read-back get_entity; commit; guarded rollback
on failure. -/
def update_entity (entity_id : String) (s : Scen) : OpRun :=
  match s.preErr with
  | some (.entityNotFound _) =>
      ⟨.error (.entityNotFound ("Entity " ++ entity_id ++ " not found")),
        [.getEntityCall], s.inTx0⟩
  | some e => ⟨.error (wrapUpdateEntity e), [.getEntityCall], s.inTx0⟩
  | none => txPhase wrapUpdateEntity true .updateEntityCall (some .getEntityCall)
      [.getEntityCall] s

/-- GraphService.delete_entity (lines 228-260), trace semantics: existence
check by store get_entity first (re-wrapped EntityNotFoundError as in
update_entity; the store contract has get_entity return an entity or raise
EntityNotFoundError, so the code's `if not entity` branch is never taken);
then begin; store delete_entity; commit; guarded rollback on failure. -/
def delete_entity (entity_id : String) (s : Scen) : OpRun :=
  match s.preErr with
  | some (.entityNotFound _) =>
      ⟨.error (.entityNotFound ("Entity " ++ entity_id ++ " not found")),
        [.getEntityCall], s.inTx0⟩
  | some e => ⟨.error (wrapDeleteEntity e), [.getEntityCall], s.inTx0⟩
  | none => txPhase wrapDeleteEntity true .deleteEntityCall none [.getEntityCall] s

/-- GraphService.create_relation (lines 262-311), trace semantics: begin;
store create_relation; read-back get_relation; commit; unguarded rollback
on failure. -/
def create_relation (s : Scen) : OpRun :=
  txPhase wrapCreateRelation false .createRelationCall (some .getRelationCall) [] s

/-- GraphService.update_relation (lines 339-386), trace semantics:
existence check by store get_relation first (a RelationNotFoundError there
is re-raised with message "Relation {id} not found"); then begin; store
update_relation; read-back get_relation; commit; guarded rollback on
failure. -/
def update_relation (relation_id : String) (s : Scen) : OpRun :=
  match s.preErr with
  | some (.relationNotFound _) =>
      ⟨.error (.relationNotFound ("Relation " ++ relation_id ++ " not found")),
        [.getRelationCall], s.inTx0⟩
  | some e => ⟨.error (wrapUpdateRelation e), [.getRelationCall], s.inTx0⟩
  | none => txPhase wrapUpdateRelation true .updateRelationCall (some .getRelationCall)
      [.getRelationCall] s

/-- GraphService.delete_relation (lines 388-420), trace semantics:
existence check by store get_relation first (re-wrapped as in
update_relation); then begin; store delete_relation; commit; guarded
rollback on failure. -/
def delete_relation (relation_id : String) (s : Scen) : OpRun :=
  match s.preErr with
  | some (.relationNotFound _) =>
      ⟨.error (.relationNotFound ("Relation " ++ relation_id ++ " not found")),
        [.getRelationCall], s.inTx0⟩
  | some e => ⟨.error (wrapDeleteRelation e), [.getRelationCall], s.inTx0⟩
  | none => txPhase wrapDeleteRelation true .deleteRelationCall none [.getRelationCall] s

/-- GraphService.get_entity (lines 159-181), trace semantics: a direct
store read with no transaction; EntityNotFoundError is re-raised unchanged
and any other exception is re-raised as
EntityNotFoundError("Entity {id} not found: {str(e)}"). -/
def get_entity (entity_id : String) (storeRes : Except GErr Unit) : Except GErr Unit :=
  match storeRes with
  | .ok _ => .ok ()
  | .error (.entityNotFound m) => .error (.entityNotFound m)
  | .error e => .error (.entityNotFound ("Entity " ++ entity_id ++ " not found: " ++ e.msg))

/-- Scenario for GraphService.query: the transaction flag on entry, the
outcome of the store query call, and of the defensive rollback. -/
structure QueryScen where
  inTx0 : Bool
  queryErr : Option GErr
  rollbackErr : Option GErr
deriving DecidableEq, Repr

/-- Outer handler of query (lines 460-463): ValidationError and
EntityNotFoundError are re-raised unchanged; every other exception becomes
ValidationError("Invalid query specification: {str(e)}"). -/
def wrapQuery : GErr → GErr
  | .validation m => .validation m
  | .entityNotFound m => .entityNotFound m
  | e => .validation ("Invalid query specification: " ++ e.msg)

/-- GraphService.query (lines 422-463), trace semantics: the QuerySpec is
converted to plain dicts (no store call), then the store query runs with no
transaction; if it raises while the transaction flag is set (left over from
a prior call), a defensive rollback runs before the error propagates; the
success path never inspects or changes the flag. -/
def query (s : QueryScen) : OpRun :=
  match s.queryErr with
  | none => ⟨.ok (), [.queryCall], s.inTx0⟩
  | some e =>
    if s.inTx0 then
      match s.rollbackErr with
      | none => ⟨.error (wrapQuery e), [.queryCall, .rollbackTx], false⟩
      | some e2 => ⟨.error (wrapQuery e2), [.queryCall, .rollbackTx], true⟩
    else
      ⟨.error (wrapQuery e), [.queryCall], false⟩

end GraphServiceT

/-- The eight mutating service operations, carrying the inputs their trace
semantics consume. -/
inductive TxOp where
  | createEntityOp
  | updateEntityOp (entity_id : String)
  | deleteEntityOp (entity_id : String)
  | createRelationOp
  | updateRelationOp (relation_id : String)
  | deleteRelationOp (relation_id : String)
  | registerEntityTypeOp (t : EntityTypeDef)
  | registerRelationTypeOp (t : RelationTypeDef)

/-- Dispatch a mutating operation to its trace semantics. -/
def runTxOp : TxOp → Scen → OpRun
  | .createEntityOp, s => GraphServiceT.create_entity s
  | .updateEntityOp i, s => GraphServiceT.update_entity i s
  | .deleteEntityOp i, s => GraphServiceT.delete_entity i s
  | .createRelationOp, s => GraphServiceT.create_relation s
  | .updateRelationOp i, s => GraphServiceT.update_relation i s
  | .deleteRelationOp i, s => GraphServiceT.delete_relation i s
  | .registerEntityTypeOp t, s => GraphServiceT.register_entity_type t s
  | .registerRelationTypeOp t, s => GraphServiceT.register_relation_type t s

/-- A property value in a property bag.  The specification's primitive
kinds that the claims exercise (string, integer, boolean) are represented;
values are compared structurally as Python dict values are. -/
inductive PValue where
  | vstr (s : String)
  | vint (n : Int)
  | vbool (b : Bool)
deriving DecidableEq, Repr

/-- The primitive kind of a property value. -/
def PValue.kind : PValue → PropertyType
  | .vstr _ => .string
  | .vint _ => .integer
  | .vbool _ => .boolean

/-- A property bag: a Python dict of property name to value, modelled as an
association list where an insert prepends and a lookup takes the first
match (dict-overwrite semantics for reads). -/
abbrev Props : Type := List (String × PValue)

/-- First-match lookup in an association list. -/
def alookup {α : Type} (k : String) : List (String × α) → Option α
  | [] => none
  | (k2, v) :: rest => if k2 = k then some v else alookup k rest

/-- A registered property definition (graph_context PropertyDefinition with
a proper PropertyType, as the schema holds after validation). -/
structure PropertyDefinition where
  ptype : PropertyType
  required : Bool
deriving DecidableEq, Repr

/-- A registered entity type schema: name and property definitions. -/
structure EntityTypeSchema where
  name : String
  properties : List (String × PropertyDefinition)
deriving DecidableEq, Repr

/-- A stored entity: its type name and property bag. -/
structure EntityRec where
  etype : String
  properties : Props
deriving DecidableEq, Repr

namespace SpecStore

/-- Modelled from the spec: the store collaborator (the external
graph-context library, out of this repository) keeps registered entity
type schemas, stored entities keyed by their opaque identifiers, a
transaction flag, and — for rollback — a snapshot of the entities taken
when the transaction began (spec sections 3 and 6). -/
structure State where
  entityTypes : List (String × EntityTypeSchema)
  entities : List (String × EntityRec)
  nextId : Nat
  inTx : Bool
  saved : Option (List (String × EntityRec))
deriving DecidableEq, Repr

/-- Modelled from the spec: `BeginTransaction() -> Handle |
fails(TransactionError)`; opening a transaction snapshots the entities and
sets the flag; beginning while a transaction is open fails. -/
def begin_transaction (st : State) : State × Except GErr Unit :=
  if st.inTx then (st, .error (.transaction "Transaction already in progress"))
  else ({ st with inTx := true, saved := some st.entities }, .ok ())

/-- Modelled from the spec: `CommitTransaction(Handle) ->
fails(TransactionError)`; committing closes the transaction and discards
the snapshot; committing with no open transaction fails. -/
def commit_transaction (st : State) : State × Except GErr Unit :=
  if st.inTx then ({ st with inTx := false, saved := none }, .ok ())
  else (st, .error (.transaction "No transaction in progress"))

/-- Modelled from the spec: `RollbackTransaction(Handle) ->
fails(TransactionError)`, "must be safe to call even if no transaction is
active (no-op)"; rolling back restores the snapshot and closes the
transaction. -/
def rollback_transaction (st : State) : State × Except GErr Unit :=
  match st.saved with
  | some snap => ({ st with entities := snap, inTx := false, saved := none }, .ok ())
  | none => ({ st with inTx := false }, .ok ())

/-- Modelled from the spec: validation of a property bag against an entity
type schema — every required property must be present, and every supplied
property must be declared with a matching primitive kind (spec section 3). -/
def validProps (schema : EntityTypeSchema) (props : Props) : Bool :=
  schema.properties.all (fun pd => !pd.2.required || (alookup pd.1 props).isSome) &&
  props.all (fun pv =>
    match alookup pv.1 schema.properties with
    | some d => pv.2.kind == d.ptype
    | none => false)

/-- Modelled from the spec: `CreateEntity(type, props) -> id |
fails(ValidationError | SchemaError)`; the store checks the type is
registered, validates the property bag against its schema, assigns a fresh
opaque identifier and stores the entity. -/
def create_entity (st : State) (etype : String) (props : Props) :
    State × Except GErr String :=
  match alookup etype st.entityTypes with
  | none => (st, .error (.schemaViolation ("Unknown entity type: " ++ etype)))
  | some schema =>
    if validProps schema props then
      let newId := "e" ++ toString st.nextId
      ({ st with entities := (newId, ⟨etype, props⟩) :: st.entities,
                 nextId := st.nextId + 1 },
       .ok newId)
    else
      (st, .error (.validation ("Invalid properties for entity type " ++ etype)))

/-- Modelled from the spec: `GetEntity(id) -> Entity | fails(EntityNotFound)`. -/
def get_entity (st : State) (entity_id : String) : Except GErr EntityRec :=
  match alookup entity_id st.entities with
  | some e => .ok e
  | none => .error (.entityNotFound ("Entity " ++ entity_id ++ " not found"))

end SpecStore

/-- The dict returned by GraphService.create_entity and
GraphService.get_entity: {"id": ..., "entity_type": ..., "properties": ...}. -/
structure EntityDict where
  id : String
  entity_type : String
  properties : Props
deriving DecidableEq, Repr

namespace GraphServiceS

/-- GraphService.create_entity (lines 120-157) over the concrete store:
begin transaction; store create_entity; read back the stored entity with
store get_entity; commit; return {"id", "entity_type", "properties"} built
from the read-back; on any exception inside the transaction roll back and
re-raise; the outer handler preserves ValidationError and wraps every
other exception as TransactionError(str(e)). -/
def create_entity (st : SpecStore.State) (etype : String) (props : Props) :
    SpecStore.State × Except GErr EntityDict :=
  let (st1, rb) := SpecStore.begin_transaction st
  match rb with
  | .error e => (st1, .error (GraphServiceT.wrapCreateEntity e))
  | .ok _ =>
    match SpecStore.create_entity st1 etype props with
    | (st2, .error e) =>
        let (st3, _) := SpecStore.rollback_transaction st2
        (st3, .error (GraphServiceT.wrapCreateEntity e))
    | (st2, .ok entity_id) =>
      match SpecStore.get_entity st2 entity_id with
      | .error e =>
          let (st3, _) := SpecStore.rollback_transaction st2
          (st3, .error (GraphServiceT.wrapCreateEntity e))
      | .ok entity =>
        let (st3, rc) := SpecStore.commit_transaction st2
        match rc with
        | .ok _ => (st3, .ok ⟨entity_id, entity.etype, entity.properties⟩)
        | .error e =>
            let (st4, _) := SpecStore.rollback_transaction st3
            (st4, .error (GraphServiceT.wrapCreateEntity e))

/-- GraphService.get_entity (lines 159-181) over the concrete store: a
direct read with no transaction; EntityNotFoundError is re-raised
unchanged, any other exception as EntityNotFoundError("Entity {id} not
found: {str(e)}"). -/
def get_entity (st : SpecStore.State) (entity_id : String) : Except GErr EntityDict :=
  match SpecStore.get_entity st entity_id with
  | .ok entity => .ok ⟨entity_id, entity.etype, entity.properties⟩
  | .error (.entityNotFound m) => .error (.entityNotFound m)
  | .error e => .error (.entityNotFound
      ("Entity " ++ entity_id ++ " not found: " ++ e.msg))

end GraphServiceS

/-- A value in a query result row: a string field or a nested property bag. -/
inductive RVal where
  | rstr (s : String)
  | rprops (p : Props)
deriving DecidableEq, Repr

/-- A row returned by the store query call: graph_service.py reads
`result.id`, `result.type` and `result.properties` from it. -/
structure QueryResultRec where
  id : String
  rtype : String
  properties : Props
deriving DecidableEq, Repr

/-- The result mapping of GraphService.query (lines 448-455): every store
result row, whatever it denotes, is rendered as the dict
{"id": result.id, "entity_type": result.type, "properties":
result.properties} — these three keys and no others. -/
def queryRow (r : QueryResultRec) : List (String × RVal) :=
  [("id", .rstr r.id), ("entity_type", .rstr r.rtype), ("properties", .rprops r.properties)]

/-- The list comprehension over the store results (lines 448-455). -/
def queryRows (results : List QueryResultRec) : List (List (String × RVal)) :=
  results.map queryRow

/-- models/base.py QueryCondition (lines 106-111): the only condition shape
the repository's query model admits — a property filter with required
field, operator and value. -/
structure QueryCondition where
  field : String
  operator : String
  value : PValue
deriving DecidableEq, Repr

/-- models/base.py QuerySpec (lines 114-120): a required entity type name
and a list of property-filter conditions.  There is no relation_type,
from_entity, to_entity or direction member. -/
structure QuerySpec where
  entity_type : String
  conditions : List QueryCondition
deriving DecidableEq, Repr

/-- The per-operation transaction-lifecycle contract checked against a run:
on success exactly one commit, no rollback and a closed transaction; on a
failure after a successful begin, exactly one rollback and no commit unless
the commit itself was the raising call; and, when the operation started
with no open transaction and the rollback outcome is success, the
transaction flag is closed on return, success or failure. -/
def TxLifecycleOk (s : Scen) (r : OpRun) : Prop :=
  (r.result = .ok () →
      countEv .commitTx r.trace = 1 ∧ countEv .rollbackTx r.trace = 0 ∧
      r.finalInTx = false) ∧
  (s.beginErr = none → StoreEv.beginTx ∈ r.trace →
      ∀ e, r.result = .error e →
      countEv .rollbackTx r.trace = 1 ∧
      (countEv .commitTx r.trace = 0 ∨
        (countEv .commitTx r.trace = 1 ∧ s.commitErr ≠ none))) ∧
  (s.inTx0 = false → s.rollbackErr = none → r.finalInTx = false)

/-- The classified error kinds each mutating operation's outer handler
re-raises unchanged, read off the except clauses of graph_service.py. -/
def opPreserves : TxOp → GErr → Bool
  | .createEntityOp, .validation _ => true
  | .updateEntityOp _, .entityNotFound _ => true
  | .updateEntityOp _, .validation _ => true
  | .deleteEntityOp _, .entityNotFound _ => true
  | .createRelationOp, .validation _ => true
  | .createRelationOp, .entityNotFound _ => true
  | .updateRelationOp _, .relationNotFound _ => true
  | .updateRelationOp _, .validation _ => true
  | .deleteRelationOp _, .relationNotFound _ => true
  | .registerEntityTypeOp _, .validation _ => true
  | .registerRelationTypeOp _, .validation _ => true
  | .registerRelationTypeOp _, .schemaViolation _ => true
  | _, _ => false

/-- Scenario: every store call succeeds except CommitTransaction. -/
def scenCommitFails : Scen :=
  ⟨false, none, none, none, none, some (.other "commit failed"), none⟩

/-- Scenario: the first in-transaction call fails and the rollback fails too. -/
def scenRollbackFails : Scen :=
  ⟨false, none, some (.other "boom"), none, none, none, some (.other "rollback failed")⟩

/-- Scenario: the first in-transaction call fails; everything else succeeds. -/
def scenBodyFails : Scen :=
  ⟨false, none, some (.other "boom"), none, none, none, none⟩

/-- Scenario: the store's create_entity call raises SchemaError (as its
contract allows); everything else succeeds. -/
def scenSchemaFromCreate : Scen :=
  ⟨false, none, some (.schemaViolation "Unknown entity type: Person"), none, none, none, none⟩

/-- Scenario: the store's register call reports a duplicate type name;
everything else succeeds. -/
def scenDuplicateType : Scen :=
  ⟨false, none, some (.schemaViolation "Entity type Company already exists"), none, none, none, none⟩

/-- Scenario variant for relation types. -/
def scenDuplicateRelType : Scen :=
  ⟨false, none, some (.schemaViolation "Relation type WORKS_AT already exists"), none, none, none, none⟩

/-- Scenario: the pre-transaction existence check reports the entity
missing; nothing else is reached. -/
def scenMissingEntity : Scen :=
  ⟨false, some (.entityNotFound "Entity non-existent not found"), none, none, none, none, none⟩

/-- Scenario: the store's create_relation call raises EntityNotFoundError
for a missing endpoint; everything else succeeds. -/
def scenMissingEndpoint : Scen :=
  ⟨false, none, some (.entityNotFound "Entity missing-id not found"), none, none, none, none⟩

/-- An entity type definition whose second property carries the
unrecognized primitive kind "INVALID_TYPE" (the spec's concrete scenario). -/
def tInvalid : EntityTypeDef :=
  ⟨"TestEntity",
    [("name", .propDef (.enumType .string) true),
     ("age", .propDef (.rawType "INVALID_TYPE") false)]⟩

/-- The Company entity type of the duplicate-registration test, with valid
property definitions. -/
def tCompany : EntityTypeDef :=
  ⟨"Company",
    [("name", .propDef (.enumType .string) true),
     ("founded", .propDef (.enumType .integer) true)]⟩

/-- The WORKS_AT relation type of the duplicate-registration test. -/
def tWorksAt : RelationTypeDef :=
  ⟨"WORKS_AT", [("role", .propDef (.enumType .string) true)],
    ["Person"], ["Company"]⟩

/-- The Person schema of the spec's concrete scenario. -/
def personSchema : EntityTypeSchema :=
  ⟨"Person", [("name", ⟨.string, true⟩), ("age", ⟨.integer, true⟩)]⟩

/-- A store holding the registered Person type and no entities. -/
def st0 : SpecStore.State := ⟨[("Person", personSchema)], [], 0, false, none⟩

/-- The property bag of the spec's concrete scenario. -/
def aliceProps : Props := [("name", .vstr "Alice"), ("age", .vint 30)]

/-- The query result row for the KNOWS relation of the spec's concrete
scenario (relation id r1, from A to B, properties {since: 2023}) as the
store hands it to the service. -/
def knowsRow : QueryResultRec := ⟨"r1", "KNOWS", [("since", .vint 2023)]⟩

/-- GraphService.get_relation (lines 313-337), trace semantics: a direct
store read with no transaction; RelationNotFoundError is re-raised
unchanged and any other exception is re-raised as
RelationNotFoundError("Relation {id} not found: {str(e)}"). -/
def GraphServiceT.get_relation (relation_id : String) (storeRes : Except GErr Unit) :
    Except GErr Unit :=
  match storeRes with
  | .ok _ => .ok ()
  | .error (.relationNotFound m) => .error (.relationNotFound m)
  | .error e => .error (.relationNotFound
      ("Relation " ++ relation_id ++ " not found: " ++ e.msg))

/-- Whether the operation's transaction body makes a read-back call after
the mutate call (two in-transaction store calls before the commit). -/
def hasReadBack : TxOp → Bool
  | .createEntityOp => true
  | .updateEntityOp _ => true
  | .createRelationOp => true
  | .updateRelationOp _ => true
  | _ => false

theorem countEv_append (e : StoreEv) (a b : List StoreEv) :
    countEv e (a ++ b) = countEv e a + countEv e b := by
  induction a with
  | nil => simp [countEv]
  | cons x xs ih => simp [countEv, ih]; omega

/-- The property validation loop rejects any definition list containing a
property whose type field is not a PropertyType enum value. -/
theorem validatePropDefs_raw {props : List (String × PropDefField)}
    (h : ∃ pname k req, (pname, PropDefField.propDef (.rawType k) req) ∈ props) :
    ∃ m, validatePropDefs props = some (GErr.validation m) := by
  induction props with
  | nil =>
    rcases h with ⟨_, _, _, h⟩
    cases h
  | cons p rest ih =>
    rcases p with ⟨pname, pd⟩
    cases pd with
    | notPropDef => exact ⟨_, rfl⟩
    | propDef pt req =>
      cases pt with
      | rawType k2 => exact ⟨_, rfl⟩
      | enumType t2 =>
        apply ih
        rcases h with ⟨pn, k, rq, hmem⟩
        rcases List.mem_cons.mp hmem with heq | hmem2
        · simp at heq
        · exact ⟨pn, k, rq, hmem2⟩

/-- Claim C10: GraphService.get_entity surfaces no error kind other than
EntityNotFound — any store failure that is not already an
EntityNotFoundError is caught and re-raised as one. -/
theorem c10_get_entity_only_not_found (entity_id : String) (storeRes : Except GErr Unit) :
    resultKind (GraphServiceT.get_entity entity_id storeRes) = none ∨
    resultKind (GraphServiceT.get_entity entity_id storeRes) = some .notFoundK := by
  cases storeRes with
  | ok v => left; rfl
  | error e => right; cases e <;> rfl

/-- Claim C9 (code evidence): GraphService.query renders every store result
row as the entity-shaped dict with exactly the keys id, entity_type and
properties; no row carries a to_entity or from_entity key, so the claimed
relation-shaped result with to_entity == B cannot be produced.  In
particular the KNOWS-relation row of the spec's concrete scenario comes
back as an entity-shaped dict. -/
theorem c9_query_rows_lack_to_entity :
    (∀ results : List QueryResultRec,
      ((queryRows results).all fun row =>
        (alookup "to_entity" row).isNone && (alookup "from_entity" row).isNone) = true) ∧
    queryRows [knowsRow] =
      [[("id", .rstr "r1"), ("entity_type", .rstr "KNOWS"),
        ("properties", .rprops [("since", .vint 2023)])]] := by
  constructor
  · intro results
    induction results with
    | nil => rfl
    | cons r rs ih =>
      simp only [queryRows, List.map_cons, List.all_cons] at ih ⊢
      rw [ih]
      rfl
  · rfl

/-- Claim C7: registering an entity type one of whose properties has an
unrecognized primitive kind fails with ValidationError before any store
interaction — the trace of store calls is empty (in particular no
BeginTransaction). -/
theorem c7_register_invalid_kind_no_store_calls (t : EntityTypeDef) (s : Scen)
    (h : ∃ pname k req, (pname, PropDefField.propDef (.rawType k) req) ∈ t.properties) :
    (GraphServiceT.register_entity_type t s).trace = [] ∧
    ∃ m, (GraphServiceT.register_entity_type t s).result = .error (.validation m) := by
  obtain ⟨m, hm⟩ := validatePropDefs_raw h
  refine ⟨?_, m, ?_⟩ <;> simp [GraphServiceT.register_entity_type, hm]

theorem c7_witness :
    (GraphServiceT.register_entity_type tInvalid
        ⟨false, none, none, none, none, none, none⟩).trace = [] ∧
    ∃ m, (GraphServiceT.register_entity_type tInvalid
        ⟨false, none, none, none, none, none, none⟩).result = .error (.validation m) :=
  c7_register_invalid_kind_no_store_calls tInvalid _
    ⟨"age", "INVALID_TYPE", false, by decide⟩

/-- Claim C6 (code_bug evidence): when the store reports a duplicate type
name, register_entity_type surfaces TransactionError (the router maps it to
HTTP 500) and register_relation_type surfaces SchemaError (HTTP 400); in
neither case a distinct Conflict condition, although the repository's own
router tests assert HTTP 409 with exactly these store messages. -/
theorem c6_duplicate_type_is_not_conflict :
    (GraphServiceT.register_entity_type tCompany scenDuplicateType).result =
      .error (.transaction "Entity type Company already exists") ∧
    (GraphServiceT.register_relation_type tWorksAt scenDuplicateRelType).result =
      .error (.schemaViolation "Relation type WORKS_AT already exists") := by
  constructor <;> rfl

/-- Claim C5: when the store's create_relation call raises
EntityNotFoundError for a missing endpoint (its contract's signal that
from_entity or to_entity does not exist) and the rollback succeeds, the
service re-raises that same EntityNotFoundError unchanged — a NotFound,
never a ValidationError. -/
theorem c5_create_relation_missing_endpoint_not_found (s : Scen) (m : String)
    (hb : s.beginErr = none) (h1 : s.body1Err = some (.entityNotFound m))
    (hrb : s.rollbackErr = none) :
    (GraphServiceT.create_relation s).result = .error (.entityNotFound m) ∧
    resultKind (GraphServiceT.create_relation s).result ≠ some .validationK := by
  have hres : (GraphServiceT.create_relation s).result = .error (.entityNotFound m) := by
    simp [GraphServiceT.create_relation, GraphServiceT.txPhase, hb, h1, hrb,
      GraphServiceT.innerHandler, GraphServiceT.wrapCreateRelation]
  refine ⟨hres, ?_⟩
  rw [hres]
  simp [resultKind, GErr.kind]

theorem c5_witness :
    (GraphServiceT.create_relation scenMissingEndpoint).result =
      .error (.entityNotFound "Entity missing-id not found") ∧
    resultKind (GraphServiceT.create_relation scenMissingEndpoint).result ≠
      some .validationK :=
  c5_create_relation_missing_endpoint_not_found scenMissingEndpoint _ rfl rfl rfl

/-- Claim C4: an update_entity call whose existence check reports the
entity missing fails with NotFound after exactly the one store read — no
transaction is begun and CommitTransaction is never called. -/
theorem c4_update_nonexistent_no_commit (entity_id : String) (s : Scen) (m : String)
    (hpre : s.preErr = some (.entityNotFound m)) :
    (GraphServiceT.update_entity entity_id s).result =
      .error (.entityNotFound ("Entity " ++ entity_id ++ " not found")) ∧
    (GraphServiceT.update_entity entity_id s).trace = [.getEntityCall] ∧
    countEv .beginTx (GraphServiceT.update_entity entity_id s).trace = 0 ∧
    countEv .commitTx (GraphServiceT.update_entity entity_id s).trace = 0 := by
  simp [GraphServiceT.update_entity, hpre, countEv]

theorem c4_witness :
    (GraphServiceT.update_entity "non-existent" scenMissingEntity).result =
      .error (.entityNotFound "Entity non-existent not found") ∧
    (GraphServiceT.update_entity "non-existent" scenMissingEntity).trace =
      [.getEntityCall] ∧
    countEv .beginTx (GraphServiceT.update_entity "non-existent" scenMissingEntity).trace = 0 ∧
    countEv .commitTx (GraphServiceT.update_entity "non-existent" scenMissingEntity).trace = 0 :=
  c4_update_nonexistent_no_commit "non-existent" scenMissingEntity _ rfl

/-- The transactional phase satisfies the lifecycle contract whenever the
pre-transaction trace contains no commit or rollback and the body calls
are not transaction-control calls. -/
theorem txPhase_lifecycle (wrap : GErr → GErr) (guarded : Bool) (ev1 : StoreEv)
    (ev2 : Option StoreEv) (pre : List StoreEv) (s : Scen)
    (hc : countEv .commitTx pre = 0) (hr : countEv .rollbackTx pre = 0)
    (h1c : ev1 ≠ .commitTx) (h1r : ev1 ≠ .rollbackTx)
    (h2 : ∀ ev, ev2 = some ev → ev ≠ .commitTx ∧ ev ≠ .rollbackTx) :
    TxLifecycleOk s (GraphServiceT.txPhase wrap guarded ev1 ev2 pre s) := by
  unfold TxLifecycleOk GraphServiceT.txPhase GraphServiceT.commitStep GraphServiceT.innerHandler
  rcases s with ⟨inTx0, preE, b1, b2, bg, cm, rb⟩
  cases bg with
  | some e => simp_all [countEv_append, countEv]
  | none =>
    cases b1 with
    | some e =>
      cases rb with
      | none => simp_all [countEv_append, countEv]
      | some e2 => simp_all [countEv_append, countEv]
    | none =>
      cases ev2 with
      | none =>
        cases cm with
        | none => simp_all [countEv_append, countEv]
        | some e =>
          cases rb with
          | none => simp_all [countEv_append, countEv]
          | some e2 => simp_all [countEv_append, countEv]
      | some ev =>
        have hev := h2 ev rfl
        cases b2 with
        | some e =>
          cases rb with
          | none => simp_all [countEv_append, countEv]
          | some e2 => simp_all [countEv_append, countEv]
        | none =>
          cases cm with
          | none => simp_all [countEv_append, countEv]
          | some e =>
            cases rb with
            | none => simp_all [countEv_append, countEv]
            | some e2 => simp_all [countEv_append, countEv]

/-- An operation that failed before its transaction phase (existence check
or request validation) trivially satisfies the lifecycle contract: no
begin is in its trace and the flag is untouched. -/
theorem preFail_lifecycle (s : Scen) (e : GErr) (tr : List StoreEv)
    (hb : StoreEv.beginTx ∉ tr) :
    TxLifecycleOk s ⟨.error e, tr, s.inTx0⟩ := by
  refine ⟨fun h => by simp at h, fun _ hmem => absurd hmem hb, fun h0 _ => h0⟩

/-- Claim C1 (amended): every mutating service operation respects the
transaction lifecycle: on success the transaction it opened is committed
(exactly one commit, no rollback, flag closed); if any store call raises
after BeginTransaction succeeded, RollbackTransaction is called exactly
once and CommitTransaction is never called unless the commit itself was
the raising call; and when the operation starts with no open transaction
and the rollback outcome is success, it never returns or raises with the
transaction still open. -/
theorem c1_tx_lifecycle (op : TxOp) (s : Scen) : TxLifecycleOk s (runTxOp op s) := by
  have hev2 : ∀ x : StoreEv, x ≠ .commitTx → x ≠ .rollbackTx →
      ∀ ev, some x = some ev → ev ≠ .commitTx ∧ ev ≠ .rollbackTx := by
    intro x hxc hxr ev h
    cases h
    exact ⟨hxc, hxr⟩
  rcases s with ⟨i0, pre, b1, b2, bg, cm, rb⟩
  cases op with
  | createEntityOp =>
    exact txPhase_lifecycle _ _ _ _ _ _ rfl rfl (by decide) (by decide)
      (hev2 _ (by decide) (by decide))
  | createRelationOp =>
    exact txPhase_lifecycle _ _ _ _ _ _ rfl rfl (by decide) (by decide)
      (hev2 _ (by decide) (by decide))
  | updateEntityOp i =>
    show TxLifecycleOk _ (GraphServiceT.update_entity i _)
    unfold GraphServiceT.update_entity
    cases pre with
    | none =>
      exact txPhase_lifecycle _ _ _ _ _ _ (by decide) (by decide) (by decide) (by decide)
        (hev2 _ (by decide) (by decide))
    | some e =>
      cases e <;> exact preFail_lifecycle _ _ _ (by decide)
  | deleteEntityOp i =>
    show TxLifecycleOk _ (GraphServiceT.delete_entity i _)
    unfold GraphServiceT.delete_entity
    cases pre with
    | none =>
      exact txPhase_lifecycle _ _ _ _ _ _ (by decide) (by decide) (by decide) (by decide)
        (fun ev h => by cases h)
    | some e =>
      cases e <;> exact preFail_lifecycle _ _ _ (by decide)
  | updateRelationOp i =>
    show TxLifecycleOk _ (GraphServiceT.update_relation i _)
    unfold GraphServiceT.update_relation
    cases pre with
    | none =>
      exact txPhase_lifecycle _ _ _ _ _ _ (by decide) (by decide) (by decide) (by decide)
        (hev2 _ (by decide) (by decide))
    | some e =>
      cases e <;> exact preFail_lifecycle _ _ _ (by decide)
  | deleteRelationOp i =>
    show TxLifecycleOk _ (GraphServiceT.delete_relation i _)
    unfold GraphServiceT.delete_relation
    cases pre with
    | none =>
      exact txPhase_lifecycle _ _ _ _ _ _ (by decide) (by decide) (by decide) (by decide)
        (fun ev h => by cases h)
    | some e =>
      cases e <;> exact preFail_lifecycle _ _ _ (by decide)
  | registerEntityTypeOp t =>
    show TxLifecycleOk _ (GraphServiceT.register_entity_type t _)
    unfold GraphServiceT.register_entity_type
    cases validatePropDefs t.properties with
    | none =>
      exact txPhase_lifecycle _ _ _ _ _ _ rfl rfl (by decide) (by decide)
        (fun ev h => by cases h)
    | some e => exact preFail_lifecycle _ _ _ (by decide)
  | registerRelationTypeOp t =>
    show TxLifecycleOk _ (GraphServiceT.register_relation_type t _)
    unfold GraphServiceT.register_relation_type
    cases validatePropDefs t.properties with
    | none =>
      exact txPhase_lifecycle _ _ _ _ _ _ rfl rfl (by decide) (by decide)
        (fun ev h => by cases h)
    | some e => exact preFail_lifecycle _ _ _ (by decide)

/-- Claim C1 counterexample: in create_entity, when CommitTransaction is
itself the store call that raises after a successful begin, the trace
contains a commit call — refuting "CommitTransaction is never called" as
literally stated; and when the rollback fails after a body failure, the
operation raises with the transaction still open — refuting "never
returns or raises with a transaction still open". -/
theorem c1_counterexample :
    ((runTxOp .createEntityOp scenCommitFails).result =
        .error (.transaction "commit failed") ∧
      countEv .commitTx (runTxOp .createEntityOp scenCommitFails).trace = 1 ∧
      countEv .rollbackTx (runTxOp .createEntityOp scenCommitFails).trace = 1) ∧
    ((runTxOp .createEntityOp scenRollbackFails).result =
        .error (.transaction "rollback failed") ∧
      (runTxOp .createEntityOp scenRollbackFails).finalInTx = true) :=
  ⟨⟨rfl, rfl, rfl⟩, rfl, rfl⟩

theorem c1_witness :
    countEv .rollbackTx (runTxOp .createEntityOp scenBodyFails).trace = 1 ∧
    countEv .commitTx (runTxOp .createEntityOp scenBodyFails).trace = 0 := by
  have h := (c1_tx_lifecycle .createEntityOp scenBodyFails).2.1 rfl (by decide)
      (.transaction "boom") rfl
  refine ⟨h.1, ?_⟩
  rcases h.2 with h0 | ⟨_, hn⟩
  · exact h0
  · exact absurd rfl hn

/-- When the first in-transaction call raises and the rollback succeeds,
the transactional phase surfaces the operation's outer wrapping of that
error. -/
theorem txPhase_body1_result (wrap : GErr → GErr) (guarded : Bool) (ev1 : StoreEv)
    (ev2 : Option StoreEv) (pre : List StoreEv) (s : Scen) (e : GErr)
    (hb : s.beginErr = none) (h1 : s.body1Err = some e) (hrb : s.rollbackErr = none) :
    (GraphServiceT.txPhase wrap guarded ev1 ev2 pre s).result = .error (wrap e) := by
  simp [GraphServiceT.txPhase, hb, h1, GraphServiceT.innerHandler, hrb]

/-- When the read-back call raises and the rollback succeeds, the
transactional phase surfaces the operation's outer wrapping of that error. -/
theorem txPhase_body2_result (wrap : GErr → GErr) (guarded : Bool) (ev1 ev : StoreEv)
    (pre : List StoreEv) (s : Scen) (e : GErr)
    (hb : s.beginErr = none) (h1 : s.body1Err = none)
    (h2 : s.body2Err = some e) (hrb : s.rollbackErr = none) :
    (GraphServiceT.txPhase wrap guarded ev1 (some ev) pre s).result = .error (wrap e) := by
  simp [GraphServiceT.txPhase, hb, h1, h2, GraphServiceT.innerHandler, hrb]

/-- When the commit call raises and the rollback succeeds, the
transactional phase surfaces the operation's outer wrapping of that error. -/
theorem txPhase_commit_result (wrap : GErr → GErr) (guarded : Bool) (ev1 : StoreEv)
    (ev2 : Option StoreEv) (pre : List StoreEv) (s : Scen) (e : GErr)
    (hb : s.beginErr = none) (h1 : s.body1Err = none)
    (h2 : ev2.isSome = true → s.body2Err = none)
    (hc : s.commitErr = some e) (hrb : s.rollbackErr = none) :
    (GraphServiceT.txPhase wrap guarded ev1 ev2 pre s).result = .error (wrap e) := by
  cases ev2 with
  | none =>
    simp [GraphServiceT.txPhase, hb, h1, hc, GraphServiceT.commitStep,
      GraphServiceT.innerHandler, hrb]
  | some ev =>
    have h2s := h2 rfl
    simp [GraphServiceT.txPhase, hb, h1, h2s, hc, GraphServiceT.commitStep,
      GraphServiceT.innerHandler, hrb]

/-- Whenever any in-transaction store call (mutate, read-back when the
operation has one, or the commit itself) raises and the rollback succeeds,
the transactional phase surfaces the operation's outer wrapping of that
error. -/
theorem txPhase_raised_result (wrap : GErr → GErr) (guarded : Bool) (ev1 : StoreEv)
    (ev2 : Option StoreEv) (pre : List StoreEv) (s : Scen) (e : GErr)
    (hb : s.beginErr = none) (hrb : s.rollbackErr = none)
    (hraised :
      s.body1Err = some e ∨
      (ev2.isSome = true ∧ s.body1Err = none ∧ s.body2Err = some e) ∨
      (s.body1Err = none ∧ (ev2.isSome = true → s.body2Err = none) ∧
        s.commitErr = some e)) :
    (GraphServiceT.txPhase wrap guarded ev1 ev2 pre s).result = .error (wrap e) := by
  rcases hraised with h1 | ⟨hev, h1, h2⟩ | ⟨h1, h2, hc⟩
  · exact txPhase_body1_result _ _ _ _ _ _ _ hb h1 hrb
  · cases ev2 with
    | none => simp at hev
    | some ev => exact txPhase_body2_result _ _ _ ev _ _ _ hb h1 h2 hrb
  · exact txPhase_commit_result _ _ _ _ _ _ _ hb h1 h2 hc hrb

/-- Claim C2 counterexample: the store's create_entity call raises
SchemaError (a classified kind its contract allows); create_entity's outer
handler preserves only ValidationError, so the classified SchemaError is
re-wrapped as TransactionError rather than propagated unchanged. -/
theorem c2_counterexample :
    (runTxOp .createEntityOp scenSchemaFromCreate).result =
      .error (.transaction "Unknown entity type: Person") ∧
    (runTxOp .createEntityOp scenSchemaFromCreate).result ≠
      .error (.schemaViolation "Unknown entity type: Person") :=
  ⟨rfl, by decide⟩

/-- Claim C2 (amended): each operation preserves unchanged exactly its own
classified set (per opPreserves, read off the except clauses) and
re-raises any other store error raised inside the transaction — by the
mutate call, the read-back call when the operation has one, or the commit
itself — as TransactionError carrying the original message; query
preserves ValidationError and EntityNotFoundError and re-wraps every
other kind as ValidationError("Invalid query specification: " plus the
original message); and the read-only get_entity and get_relation re-wrap
every failure that is not already their own NotFound kind as that
NotFound kind. -/
theorem c2_error_propagation :
    (∀ (op : TxOp) (s : Scen) (e : GErr),
        s.beginErr = none → s.rollbackErr = none →
        (s.body1Err = some e ∨
          (hasReadBack op = true ∧ s.body1Err = none ∧ s.body2Err = some e) ∨
          (s.body1Err = none ∧ (hasReadBack op = true → s.body2Err = none) ∧
            s.commitErr = some e)) →
        StoreEv.beginTx ∈ (runTxOp op s).trace →
        (runTxOp op s).result =
          .error (if opPreserves op e then e else .transaction e.msg)) ∧
    (∀ (b : Bool) (m : String),
        (GraphServiceT.query ⟨b, some (.validation m), none⟩).result =
          .error (.validation m) ∧
        (GraphServiceT.query ⟨b, some (.entityNotFound m), none⟩).result =
          .error (.entityNotFound m) ∧
        (GraphServiceT.query ⟨b, some (.relationNotFound m), none⟩).result =
          .error (.validation ("Invalid query specification: " ++ m)) ∧
        (GraphServiceT.query ⟨b, some (.schemaViolation m), none⟩).result =
          .error (.validation ("Invalid query specification: " ++ m)) ∧
        (GraphServiceT.query ⟨b, some (.transaction m), none⟩).result =
          .error (.validation ("Invalid query specification: " ++ m)) ∧
        (GraphServiceT.query ⟨b, some (.other m), none⟩).result =
          .error (.validation ("Invalid query specification: " ++ m))) ∧
    (∀ (entity_id m : String),
        GraphServiceT.get_entity entity_id (.error (.entityNotFound m)) =
          .error (.entityNotFound m)) ∧
    (∀ (entity_id : String) (e : GErr), e.kind ≠ .notFoundK →
        GraphServiceT.get_entity entity_id (.error e) =
          .error (.entityNotFound ("Entity " ++ entity_id ++ " not found: " ++ e.msg))) ∧
    (∀ (relation_id m : String),
        GraphServiceT.get_relation relation_id (.error (.relationNotFound m)) =
          .error (.relationNotFound m)) ∧
    (∀ (relation_id : String) (e : GErr), e.kind ≠ .relationNotFoundK →
        GraphServiceT.get_relation relation_id (.error e) =
          .error (.relationNotFound
            ("Relation " ++ relation_id ++ " not found: " ++ e.msg))) := by
  refine ⟨?_, ?_, ?_, ?_, ?_, ?_⟩
  · intro op s e hb hrb hraised hmem
    rcases s with ⟨i0, pre, b1, b2, bg, cm, rb⟩
    obtain rfl : bg = none := hb
    obtain rfl : rb = none := hrb
    cases op with
    | createEntityOp =>
      have hres := txPhase_raised_result GraphServiceT.wrapCreateEntity false
        .createEntityCall (some .getEntityCall) []
        ⟨i0, pre, b1, b2, none, cm, none⟩ e rfl rfl hraised
      exact hres.trans (by cases e <;> rfl)
    | createRelationOp =>
      have hres := txPhase_raised_result GraphServiceT.wrapCreateRelation false
        .createRelationCall (some .getRelationCall) []
        ⟨i0, pre, b1, b2, none, cm, none⟩ e rfl rfl hraised
      exact hres.trans (by cases e <;> rfl)
    | updateEntityOp i =>
      cases pre with
      | some e2 =>
        exfalso
        cases e2 <;> simp [runTxOp, GraphServiceT.update_entity] at hmem
      | none =>
        have hres := txPhase_raised_result GraphServiceT.wrapUpdateEntity true
          .updateEntityCall (some .getEntityCall) [.getEntityCall]
          ⟨i0, none, b1, b2, none, cm, none⟩ e rfl rfl hraised
        exact hres.trans (by cases e <;> rfl)
    | deleteEntityOp i =>
      cases pre with
      | some e2 =>
        exfalso
        cases e2 <;> simp [runTxOp, GraphServiceT.delete_entity] at hmem
      | none =>
        have hres := txPhase_raised_result GraphServiceT.wrapDeleteEntity true
          .deleteEntityCall none [.getEntityCall]
          ⟨i0, none, b1, b2, none, cm, none⟩ e rfl rfl hraised
        exact hres.trans (by cases e <;> rfl)
    | updateRelationOp i =>
      cases pre with
      | some e2 =>
        exfalso
        cases e2 <;> simp [runTxOp, GraphServiceT.update_relation] at hmem
      | none =>
        have hres := txPhase_raised_result GraphServiceT.wrapUpdateRelation true
          .updateRelationCall (some .getRelationCall) [.getRelationCall]
          ⟨i0, none, b1, b2, none, cm, none⟩ e rfl rfl hraised
        exact hres.trans (by cases e <;> rfl)
    | deleteRelationOp i =>
      cases pre with
      | some e2 =>
        exfalso
        cases e2 <;> simp [runTxOp, GraphServiceT.delete_relation] at hmem
      | none =>
        have hres := txPhase_raised_result GraphServiceT.wrapDeleteRelation true
          .deleteRelationCall none [.getRelationCall]
          ⟨i0, none, b1, b2, none, cm, none⟩ e rfl rfl hraised
        exact hres.trans (by cases e <;> rfl)
    | registerEntityTypeOp t =>
      cases hv : validatePropDefs t.properties with
      | some e2 =>
        exfalso
        simp [runTxOp, GraphServiceT.register_entity_type, hv] at hmem
      | none =>
        have hres := txPhase_raised_result GraphServiceT.wrapRegisterEntityType true
          .registerEntityTypeCall none []
          ⟨i0, pre, b1, b2, none, cm, none⟩ e rfl rfl hraised
        show (GraphServiceT.register_entity_type t _).result = _
        rw [GraphServiceT.register_entity_type, hv]
        exact hres.trans (by cases e <;> rfl)
    | registerRelationTypeOp t =>
      cases hv : validatePropDefs t.properties with
      | some e2 =>
        exfalso
        simp [runTxOp, GraphServiceT.register_relation_type, hv] at hmem
      | none =>
        have hres := txPhase_raised_result GraphServiceT.wrapRegisterRelationType true
          .registerRelationTypeCall none []
          ⟨i0, pre, b1, b2, none, cm, none⟩ e rfl rfl hraised
        show (GraphServiceT.register_relation_type t _).result = _
        rw [GraphServiceT.register_relation_type, hv]
        exact hres.trans (by cases e <;> rfl)
  · intro b m
    cases b <;> exact ⟨rfl, rfl, rfl, rfl, rfl, rfl⟩
  · intro entity_id m
    rfl
  · intro entity_id e hk
    cases e with
    | entityNotFound m => exact absurd rfl hk
    | relationNotFound m => rfl
    | validation m => rfl
    | schemaViolation m => rfl
    | transaction m => rfl
    | other m => rfl
  · intro relation_id m
    rfl
  · intro relation_id e hk
    cases e with
    | entityNotFound m => rfl
    | relationNotFound m => exact absurd rfl hk
    | validation m => rfl
    | schemaViolation m => rfl
    | transaction m => rfl
    | other m => rfl

theorem c2_witness :
    (runTxOp .createEntityOp scenCommitFails).result =
      .error (.transaction "commit failed") := by
  have h := c2_error_propagation.1 .createEntityOp scenCommitFails (.other "commit failed")
    rfl rfl (Or.inr (Or.inr ⟨rfl, fun _ => rfl, rfl⟩)) (by decide)
  simpa [opPreserves, GErr.msg] using h
/-- Claim C8 counterexample: a query that succeeds while a transaction is
open from a prior unrelated call returns normally with the transaction
still open — the success path never inspects the flag — refuting "a query
never returns with a transaction open" as literally stated. -/
theorem c8_counterexample :
    (GraphServiceT.query ⟨true, none, none⟩).result = .ok () ∧
    (GraphServiceT.query ⟨true, none, none⟩).finalInTx = true :=
  ⟨rfl, rfl⟩

/-- Claim C8 (amended): the query adapter never calls BeginTransaction; if
the store raises while a transaction is open, RollbackTransaction is
called before the error propagates, so when that rollback succeeds a query
never raises with a transaction open; a successful query leaves any
pre-existing transaction state unchanged. -/
theorem c8_query_no_begin (s : GraphServiceT.QueryScen) :
    countEv .beginTx (GraphServiceT.query s).trace = 0 ∧
    (∀ e, s.queryErr = some e → s.inTx0 = true →
        countEv .rollbackTx (GraphServiceT.query s).trace = 1) ∧
    (∀ e, s.queryErr = some e → s.rollbackErr = none →
        (GraphServiceT.query s).finalInTx = false) ∧
    (s.queryErr = none → (GraphServiceT.query s).finalInTx = s.inTx0) := by
  rcases s with ⟨b, qe, rbe⟩
  cases qe with
  | none =>
    refine ⟨rfl, ?_, ?_, fun _ => rfl⟩
    · intro e h
      cases h
    · intro e h
      cases h
  | some e =>
    cases b with
    | false =>
      refine ⟨rfl, ?_, fun e2 _ _ => rfl, fun h => by cases h⟩
      intro e2 _ hb
      cases hb
    | true =>
      cases rbe with
      | none =>
        exact ⟨rfl, fun e2 _ _ => rfl, fun e2 _ _ => rfl, fun h => by cases h⟩
      | some e2 =>
        refine ⟨rfl, fun e3 _ _ => rfl, ?_, fun h => by cases h⟩
        intro e3 _ hrb
        cases hrb

theorem c8_witness :
    countEv .beginTx (GraphServiceT.query ⟨true, some (.other "boom"), none⟩).trace = 0 ∧
    countEv .rollbackTx (GraphServiceT.query ⟨true, some (.other "boom"), none⟩).trace = 1 ∧
    (GraphServiceT.query ⟨true, some (.other "boom"), none⟩).finalInTx = false := by
  have h := c8_query_no_begin ⟨true, some (.other "boom"), none⟩
  exact ⟨h.1, h.2.1 _ rfl rfl, h.2.2.1 _ rfl rfl⟩

/-- Claim C3: over the spec-modelled store, for any registered type and
any property bag valid for its schema, create_entity succeeds with a
non-empty fresh id and returns exactly the supplied type and properties,
and a subsequent get_entity on the resulting state returns the same type
and the same properties. -/
theorem c3_create_get_roundtrip (st : SpecStore.State) (etype : String)
    (props : Props) (schema : EntityTypeSchema)
    (hty : alookup etype st.entityTypes = some schema)
    (hvalid : SpecStore.validProps schema props = true)
    (htx : st.inTx = false) :
    ∃ newId st2,
      GraphServiceS.create_entity st etype props = (st2, .ok ⟨newId, etype, props⟩) ∧
      newId ≠ "" ∧
      GraphServiceS.get_entity st2 newId = .ok ⟨newId, etype, props⟩ := by
  refine ⟨"e" ++ toString st.nextId,
    ⟨st.entityTypes,
      ("e" ++ toString st.nextId, ⟨etype, props⟩) :: st.entities,
      st.nextId + 1, false, none⟩, ?_, ?_, ?_⟩
  · simp [GraphServiceS.create_entity, SpecStore.begin_transaction, htx,
      SpecStore.create_entity, hty, hvalid, SpecStore.get_entity, alookup,
      SpecStore.commit_transaction]
  · intro h
    have hlen := congrArg String.length h
    simp [String.length_append] at hlen
    exact absurd hlen.1 (by decide)
  · simp [GraphServiceS.get_entity, SpecStore.get_entity, alookup]

theorem c3_witness :
    ∃ newId st2,
      GraphServiceS.create_entity st0 "Person" aliceProps =
        (st2, .ok ⟨newId, "Person", aliceProps⟩) ∧
      newId ≠ "" ∧
      GraphServiceS.get_entity st2 newId = .ok ⟨newId, "Person", aliceProps⟩ :=
  c3_create_get_roundtrip st0 "Person" aliceProps personSchema
    (by decide) (by decide) rfl
